import Mathlib

/-!
Shallow embedding of the event-driven session/component orchestration layer of
the adyen-react-native bridge, as implemented in
`src/AdyenCheckoutContext.tsx` (the `AdyenCheckout` provider: `start`,
`removeEventListeners`, `startEventListeners`, `submitPayment`,
`createSession`, and the pure resolver `find` / `mapCreatedComponentType`)
and in the Android `InstantFragment` (`onViewState`).

Stateful React code (the `subscriptions` ref, the session state) is embedded by
explicit state passing; event handlers are embedded as pure functions from the
event payload to the list of observable effects they perform, in order.
Helpers imported from modules that are not among the sources
(`checkConfiguration`, `checkPaymentMethodsResponse` from `core/utils`,
`getNativeComponent`, the `Event` name constants, the configuration and
session types) are modelled from the specification and are marked as such.
-/

namespace AdyenRN

/-- A payment method record of the catalog: the orchestration layer only ever
inspects its `type` string (`pm.type` in `find`); other metadata is opaque. -/
structure PaymentMethod where
  type : String
deriving DecidableEq

/-- The payment-methods catalog: JSON response from the Adyen
`\paymentMethods` API, an object holding the list `paymentMethods`. -/
structure PaymentMethodsResponse where
  paymentMethods : List PaymentMethod
deriving DecidableEq

/-- Embeds `mapCreatedComponentType` from the sources: components created as
`card` are matched with payment-method response objects of type `scheme`;
every other name is returned unchanged. -/
def mapCreatedComponentType (pmType : String) : String :=
  if pmType = "card" then "scheme" else pmType

/-- Embeds `find` from the sources: the first record of the catalog whose
`type` equals the mapped component type, `none` when there is no match
(JavaScript `Array.prototype.find` returns `undefined`; it never throws). -/
def find (paymentMethods : PaymentMethodsResponse) (typeName : String) :
    Option PaymentMethod :=
  paymentMethods.paymentMethods.find?
    (fun pm => pm.type == mapCreatedComponentType typeName)

theorem find_card_eq (cat : PaymentMethodsResponse) :
    find cat "card" = cat.paymentMethods.find? (fun pm => pm.type == "scheme") := by
  simp [find, mapCreatedComponentType]

theorem find_ne_card_eq (cat : PaymentMethodsResponse) (tn : String)
    (h : tn ≠ "card") :
    find cat tn = cat.paymentMethods.find? (fun pm => pm.type == tn) := by
  simp [find, mapCreatedComponentType, h]

/-- Claim C4: `find(catalog, "card")` returns a record of type `"scheme"`
whenever one is present and never matches the literal string `"card"`; for any
other requested name it matches exactly the records whose `type` is
string-equal to the name, and returns absence otherwise (`find` is a total
function, so it cannot throw). -/
theorem find_resolves_types (cat : PaymentMethodsResponse) (tn : String) :
    (∀ pm, find cat "card" = some pm → pm.type = "scheme")
    ∧ ((∃ pm ∈ cat.paymentMethods, pm.type = "scheme") →
        ∃ pm, find cat "card" = some pm ∧ pm.type = "scheme")
    ∧ ((∀ pm ∈ cat.paymentMethods, pm.type ≠ "scheme") →
        find cat "card" = none)
    ∧ (tn ≠ "card" → ∀ pm, find cat tn = some pm → pm.type = tn)
    ∧ (tn ≠ "card" →
        ((find cat tn).isSome ↔ ∃ pm ∈ cat.paymentMethods, pm.type = tn)) := by
  refine ⟨?_, ?_, ?_, ?_, ?_⟩
  · intro pm hpm
    rw [find_card_eq] at hpm
    have := List.find?_some hpm
    simpa using this
  · intro ⟨pm, hmem, hty⟩
    rw [find_card_eq]
    have hsome : (cat.paymentMethods.find?
        (fun pm => pm.type == "scheme")).isSome := by
      rw [List.find?_isSome]
      exact ⟨pm, hmem, by simpa using hty⟩
    obtain ⟨q, hq⟩ := Option.isSome_iff_exists.mp hsome
    refine ⟨q, hq, ?_⟩
    have := List.find?_some hq
    simpa using this
  · intro hnone
    rw [find_card_eq, List.find?_eq_none]
    intro pm hmem
    simpa using hnone pm hmem
  · intro hne pm hpm
    rw [find_ne_card_eq cat tn hne] at hpm
    have := List.find?_some hpm
    simpa using this
  · intro hne
    rw [find_ne_card_eq cat tn hne, List.find?_isSome]
    constructor
    · rintro ⟨pm, hmem, hty⟩
      exact ⟨pm, hmem, by simpa using hty⟩
    · rintro ⟨pm, hmem, hty⟩
      exact ⟨pm, hmem, by simpa using hty⟩

/-- Witness for C4 at the concrete catalogs of the spec scenarios: a catalog
holding a literal `card` record and a `scheme` record resolves `"card"` to the
`scheme` record, and `"ideal"` resolves by exact equality. -/
theorem find_resolves_types_witness :
    Option.map PaymentMethod.type (find ⟨[⟨"card"⟩, ⟨"scheme"⟩]⟩ "card")
      = some "scheme"
    ∧ Option.map PaymentMethod.type (find ⟨[⟨"ideal"⟩, ⟨"scheme"⟩]⟩ "ideal")
      = some "ideal" := by
  constructor
  · obtain ⟨pm, hpm, hty⟩ :=
      (find_resolves_types ⟨[⟨"card"⟩, ⟨"scheme"⟩]⟩ "card").2.1
        ⟨⟨"scheme"⟩, by decide, rfl⟩
    rw [hpm]
    simp [hty]
  · have he : find ⟨[⟨"ideal"⟩, ⟨"scheme"⟩]⟩ "ideal" = some ⟨"ideal"⟩ := by
      decide
    have hty := (find_resolves_types ⟨[⟨"ideal"⟩, ⟨"scheme"⟩]⟩ "ideal").2.2.2.1
      (by decide) ⟨"ideal"⟩ he
    rw [he]
    simp [hty]

/-- Modelled from the spec: `DropInConfiguration`, the nested drop-in
sub-configuration of `Configuration` (the configuration types come from
`core/configuration`, which is not among the sources). The
`skipListWhenSinglePaymentMethod` key is the one written by `start`;
`showPreselectedStoredPaymentMethod` stands for the other host-suppliable
drop-in options. -/
structure DropInConfiguration where
  skipListWhenSinglePaymentMethod : Option Bool
  showPreselectedStoredPaymentMethod : Option Bool
deriving DecidableEq

/-- Modelled from the spec: `Configuration` is an immutable record of
environment/client credentials, return-URL, display/locale options, and a
nested drop-in sub-configuration; client key and environment are the mandatory
fields. Optional JavaScript object keys are embedded as `Option` fields. -/
structure Configuration where
  environment : Option String
  clientKey : Option String
  returnUrl : Option String
  countryCode : Option String
  dropin : Option DropInConfiguration
deriving DecidableEq

/-- Modelled from the spec: `SessionResponse` holds the session's own
payment-methods catalog plus a session continuation token. -/
structure SessionResponse where
  sessionToken : String
  paymentMethods : PaymentMethodsResponse
deriving DecidableEq

/-- An opaque reference to a live native payment component instance: the
orchestration layer only uses its identity and its declared capability set
(`events : string[]`). -/
structure NativeComponentHandle where
  name : String
  events : List String
deriving DecidableEq

/-- Modelled from the spec: the fixed native event vocabulary from
`core/constants` (not among the sources); the spec fixes the four strings
`onSubmit`, `onError`, `onAdditionalDetails`, `onComplete`. -/
def Event.onSubmit : String := "onSubmit"

def Event.onError : String := "onError"

def Event.onAdditionalDetails : String := "onAdditionalDetails"

def Event.onComplete : String := "onComplete"

/-- A live event-subscription handle as stored in the `subscriptions` ref.
`origin` tags the `start` call that created it, `event` is the subscribed
native event name. `live` and `releaseCount` embed the state of the external
React Native emitter registry: `live` is whether the subscription is currently
registered, `releaseCount` counts how many times it was actually released. -/
structure Subscription where
  origin : Nat
  event : String
  live : Bool
  releaseCount : Nat
deriving DecidableEq

/-- Embeds `EmitterSubscription.remove()` of the external React Native event
emitter: it deregisters the subscription from the emitter registry; removing
an already-removed subscription is a no-op (the registry deletion of an absent
key), so the underlying release happens at most once per subscription. -/
def Subscription.remove (s : Subscription) : Subscription :=
  if s.live then
    { s with live := false, releaseCount := s.releaseCount + 1 }
  else s

/-- Embeds `removeEventListeners` from the sources: calls `remove()` on every
subscription currently in the ref (`subscriptions.current.forEach(s =>
s.remove())`); it does not clear the array itself. -/
def removeEventListeners (subscriptions : List Subscription) :
    List Subscription :=
  subscriptions.map Subscription.remove

/-- Embeds `startEventListeners` from the sources, as the subscription list it
assigns to the ref: unconditional listeners for the submit and error events,
then a listener for additional-details and one for completion, each only when
the native component declares that event in its capability set. -/
def startEventListeners (callId : Nat)
    (nativeComponent : NativeComponentHandle) : List Subscription :=
  let base := [⟨callId, Event.onSubmit, true, 0⟩,
    ⟨callId, Event.onError, true, 0⟩]
  let withDetails :=
    if nativeComponent.events.contains Event.onAdditionalDetails then
      base ++ [⟨callId, Event.onAdditionalDetails, true, 0⟩]
    else base
  if nativeComponent.events.contains Event.onComplete then
    withDetails ++ [⟨callId, Event.onComplete, true, 0⟩]
  else withDetails

/-- The errors thrown on the pre-flight path of `start`. -/
inductive StartError where
  | paymentMethodsError (message : String)
  | configurationError (missingField : String)
deriving DecidableEq

/-- Outcome of a pre-flight check or of a whole `start` call: normal
completion, or a thrown error propagating to the host. -/
inductive StartResult where
  | ok
  | error (e : StartError)
deriving DecidableEq

/-- Whether a start outcome is a thrown `ConfigurationError`. -/
def StartResult.isConfigurationError : StartResult → Bool
  | .error (.configurationError _) => true
  | _ => false

/-- Result of `checkPaymentMethodsResponse`: the validated catalog, or a
thrown error. -/
inductive PaymentMethodsCheck where
  | ok (methods : PaymentMethodsResponse)
  | error (e : StartError)
deriving DecidableEq

/-- Modelled from the spec: `checkPaymentMethodsResponse` from `core/utils` is
not among the sources; the spec says the effective catalog must be available
and non-empty, and that `start` fails with a structured error otherwise. -/
def checkPaymentMethodsResponse (response : Option PaymentMethodsResponse) :
    PaymentMethodsCheck :=
  match response with
  | none => .error (.paymentMethodsError "No payment methods available")
  | some r =>
    if r.paymentMethods.isEmpty then
      .error (.paymentMethodsError "Payment methods list is empty")
    else .ok r

/-- Modelled from the spec: `checkConfiguration` from `core/utils` is not
among the sources; the spec says it checks presence of the mandatory
environment and client-key fields and fails fast with a descriptive error
naming the missing field, before any native call. -/
def checkConfiguration (config : Configuration) : StartResult :=
  if config.environment = none then
    .error (.configurationError "environment")
  else if config.clientKey = none then
    .error (.configurationError "clientKey")
  else .ok

/-- Result of `getNativeComponent`: the selected native component and the
payment-method record found by the resolver, when any. -/
structure ResolvedComponent where
  nativeComponent : NativeComponentHandle
  paymentMethod : Option PaymentMethod
deriving DecidableEq

/-- Modelled from the spec: `getNativeComponent` is not among the sources
(only its resolver `find` is); the spec says `start` resolves the
payment-method record via the resolver for the requested type name, absence
signalling full-list mode, and selects a native component whose capability set
is declared by the component itself (here a parameter, since the component
implementations are external collaborators). -/
def getNativeComponent (componentEvents : List String) (typeName : String)
    (paymentMethods : PaymentMethodsResponse) : ResolvedComponent :=
  ⟨⟨typeName, componentEvents⟩, find paymentMethods typeName⟩

/-- Embeds the `singlePaymentConfig` object literal built in the single-method
branch of `start`: the spread of `config` with `dropin` replaced by the fresh
object whose only key is `skipListWhenSinglePaymentMethod: true`. -/
def singlePaymentConfig (config : Configuration) : Configuration :=
  { config with
    dropin := some ⟨some true, none⟩ }

/-- One invocation of the native `open` operation, with its two arguments. -/
structure OpenInvocation where
  methods : PaymentMethodsResponse
  config : Configuration
deriving DecidableEq

/-- The observable outcome of one `start` call: the final content of the
`subscriptions` ref, the control-flow result, and the `open` invocations
performed (in order). -/
structure StartOutcome where
  subscriptions : List Subscription
  result : StartResult
  opens : List OpenInvocation
deriving DecidableEq

/-- Embeds `paymentMethods ?? sessionStorage?.paymentMethods`, the effective
catalog source for `start`. -/
def effectivePaymentMethods (paymentMethods : Option PaymentMethodsResponse)
    (sessionStorage : Option SessionResponse) : Option PaymentMethodsResponse :=
  paymentMethods.orElse (fun _ => sessionStorage.map (·.paymentMethods))

/-- Embeds `start` from the sources. In order: release every subscription of
the previous set; validate the effective catalog (a thrown error aborts);
resolve the native component and payment method; validate the configuration
(a thrown error aborts, before any listener is attached and before `open`);
replace the subscription set with a fresh one; invoke native `open` once, with
the narrowed catalog and derived configuration when the resolver found a
record, and with the full catalog and unmodified configuration otherwise.
`callId` tags the subscriptions created by this call and `componentEvents` is
the declared capability set of the selected native component. -/
def start (componentEvents : List String) (callId : Nat)
    (config : Configuration) (paymentMethods : Option PaymentMethodsResponse)
    (sessionStorage : Option SessionResponse) (typeName : String)
    (subscriptions : List Subscription) : StartOutcome :=
  let cleared := removeEventListeners subscriptions
  match checkPaymentMethodsResponse
      (effectivePaymentMethods paymentMethods sessionStorage) with
  | .error e => ⟨cleared, .error e, []⟩
  | .ok currentPaymentMethods =>
    let resolved :=
      getNativeComponent componentEvents typeName currentPaymentMethods
    match checkConfiguration config with
    | .error e => ⟨cleared, .error e, []⟩
    | .ok =>
      let attached := startEventListeners callId resolved.nativeComponent
      match resolved.paymentMethod with
      | some paymentMethod =>
        ⟨attached, .ok, [⟨⟨[paymentMethod]⟩, singlePaymentConfig config⟩]⟩
      | none => ⟨attached, .ok, [⟨currentPaymentMethods, config⟩]⟩

theorem Subscription.remove_remove (s : Subscription) :
    s.remove.remove = s.remove := by
  unfold Subscription.remove
  split_ifs with h1 h2 <;> simp_all

theorem Subscription.live_remove (s : Subscription) :
    s.remove.live = false := by
  unfold Subscription.remove
  split_ifs with h <;> simp_all

theorem Subscription.releaseCount_remove (s : Subscription) :
    s.remove.releaseCount = s.releaseCount + (if s.live then 1 else 0) := by
  unfold Subscription.remove
  split_ifs with h <;> simp_all

theorem removeEventListeners_twice (subs : List Subscription) :
    removeEventListeners (removeEventListeners subs)
      = removeEventListeners subs := by
  induction subs with
  | nil => rfl
  | cons s t ih =>
    simp only [removeEventListeners, List.map_cons] at ih ⊢
    rw [Subscription.remove_remove, ih]

theorem removeEventListeners_releaseCounts (subs : List Subscription) :
    (removeEventListeners subs).map (fun s => s.releaseCount)
      = subs.map (fun s => s.releaseCount + (if s.live then 1 else 0)) := by
  induction subs with
  | nil => rfl
  | cons s t ih =>
    simp only [removeEventListeners, List.map_cons] at ih ⊢
    rw [Subscription.releaseCount_remove, ih]

theorem removeEventListeners_not_live (subs : List Subscription) :
    ∀ s ∈ removeEventListeners subs, s.live = false := by
  intro s hs
  unfold removeEventListeners at hs
  obtain ⟨t, _, rfl⟩ := List.mem_map.mp hs
  exact Subscription.live_remove t

/-- Claim C5: `removeEventListeners` is idempotent; after one call — and still
after a second call — every subscription of the set has been released exactly
once (released subscriptions are skipped by the emitter, so there is no
double-release), and the call is a no-op on the empty set. -/
theorem removeEventListeners_idempotent (subs : List Subscription) :
    removeEventListeners (removeEventListeners subs)
      = removeEventListeners subs
    ∧ (removeEventListeners subs).map (fun s => s.releaseCount)
        = subs.map (fun s => s.releaseCount + (if s.live then 1 else 0))
    ∧ (removeEventListeners (removeEventListeners subs)).map
          (fun s => s.releaseCount)
        = subs.map (fun s => s.releaseCount + (if s.live then 1 else 0))
    ∧ removeEventListeners [] = [] := by
  refine ⟨removeEventListeners_twice subs,
    removeEventListeners_releaseCounts subs, ?_, rfl⟩
  rw [removeEventListeners_twice]
  exact removeEventListeners_releaseCounts subs

theorem start_ok_eq (componentEvents : List String) (callId : Nat)
    (config : Configuration) (paymentMethods : Option PaymentMethodsResponse)
    (sessionStorage : Option SessionResponse) (typeName : String)
    (subs : List Subscription) (cat : PaymentMethodsResponse)
    (hpm : checkPaymentMethodsResponse
      (effectivePaymentMethods paymentMethods sessionStorage) = .ok cat)
    (hcfg : checkConfiguration config = .ok) :
    start componentEvents callId config paymentMethods sessionStorage typeName
        subs
      = ⟨startEventListeners callId ⟨typeName, componentEvents⟩, .ok,
          match find cat typeName with
          | some pm => [⟨⟨[pm]⟩, singlePaymentConfig config⟩]
          | none => [⟨cat, config⟩]⟩ := by
  unfold start
  rw [hpm, hcfg]
  cases h : find cat typeName <;> simp [getNativeComponent, h]

theorem start_error_eq (componentEvents : List String) (callId : Nat)
    (config : Configuration) (paymentMethods : Option PaymentMethodsResponse)
    (sessionStorage : Option SessionResponse) (typeName : String)
    (subs : List Subscription) (e : StartError)
    (hpm : checkPaymentMethodsResponse
      (effectivePaymentMethods paymentMethods sessionStorage) = .error e) :
    start componentEvents callId config paymentMethods sessionStorage typeName
        subs
      = ⟨removeEventListeners subs, .error e, []⟩ := by
  unfold start
  rw [hpm]

theorem start_config_error_eq (componentEvents : List String) (callId : Nat)
    (config : Configuration) (paymentMethods : Option PaymentMethodsResponse)
    (sessionStorage : Option SessionResponse) (typeName : String)
    (subs : List Subscription) (cat : PaymentMethodsResponse) (e : StartError)
    (hpm : checkPaymentMethodsResponse
      (effectivePaymentMethods paymentMethods sessionStorage) = .ok cat)
    (hcfg : checkConfiguration config = .error e) :
    start componentEvents callId config paymentMethods sessionStorage typeName
        subs
      = ⟨removeEventListeners subs, .error e, []⟩ := by
  unfold start
  rw [hpm, hcfg]

theorem checkConfiguration_missing_env (config : Configuration)
    (henv : config.environment = none) :
    checkConfiguration config = .error (.configurationError "environment") := by
  simp [checkConfiguration, henv]

/-- Claim C1 counterexample: a run of `start` on a configuration missing the
mandatory environment field where the effective catalog is also absent does
not report a ConfigurationError: `checkPaymentMethodsResponse` runs first in
`start` and its payment-methods error is the one reported. (The native open
operation is still never invoked.) -/
theorem start_missing_env_counterexample :
    Configuration.environment ⟨none, some "client_key", none, none, none⟩
      = none
    ∧ StartResult.isConfigurationError
        (start [] 0 ⟨none, some "client_key", none, none, none⟩ none none
          "scheme" []).result
      = false
    ∧ (start [] 0 ⟨none, some "client_key", none, none, none⟩ none none
        "scheme" []).opens = [] := by
  decide

/-- Claim C1 (amended): for every run of `start` on a configuration missing
the mandatory environment field, the native open operation is never invoked
(zero open invocations); and whenever the effective catalog check passes, the
error reported through the host error path is the ConfigurationError naming
the missing environment field. (Amended because when the catalog check itself
fails, that earlier payment-methods error is reported instead — open is still
never invoked.) -/
theorem start_missing_env_no_open (componentEvents : List String)
    (callId : Nat) (config : Configuration)
    (paymentMethods : Option PaymentMethodsResponse)
    (sessionStorage : Option SessionResponse) (typeName : String)
    (subs : List Subscription) (henv : config.environment = none) :
    (start componentEvents callId config paymentMethods sessionStorage
        typeName subs).opens = []
    ∧ (∀ cat, checkPaymentMethodsResponse
          (effectivePaymentMethods paymentMethods sessionStorage) = .ok cat →
        (start componentEvents callId config paymentMethods sessionStorage
            typeName subs).result
          = .error (.configurationError "environment")) := by
  have hcfg := checkConfiguration_missing_env config henv
  constructor
  · cases hpm : checkPaymentMethodsResponse
        (effectivePaymentMethods paymentMethods sessionStorage) with
    | error e =>
      rw [start_error_eq componentEvents callId config paymentMethods
        sessionStorage typeName subs e hpm]
    | ok cat =>
      rw [start_config_error_eq componentEvents callId config paymentMethods
        sessionStorage typeName subs cat _ hpm hcfg]
  · intro cat hpm
    rw [start_config_error_eq componentEvents callId config paymentMethods
      sessionStorage typeName subs cat _ hpm hcfg]

/-- Witness for C1 (amended) at a concrete run: environment missing, catalog
present, client key present: no open invocation and the ConfigurationError
for the environment field is reported. -/
theorem start_missing_env_no_open_witness :
    (start [] 0 ⟨none, some "client_key", none, none, none⟩
        (some ⟨[⟨"scheme"⟩]⟩) none "card" []).opens = []
    ∧ (start [] 0 ⟨none, some "client_key", none, none, none⟩
        (some ⟨[⟨"scheme"⟩]⟩) none "card" []).result
      = .error (.configurationError "environment") := by
  have h := start_missing_env_no_open [] 0
    ⟨none, some "client_key", none, none, none⟩ (some ⟨[⟨"scheme"⟩]⟩) none
    "card" [] rfl
  exact ⟨h.1, h.2 ⟨[⟨"scheme"⟩]⟩ (by decide)⟩

theorem mem_startEventListeners (callId : Nat) (c : NativeComponentHandle)
    (s : Subscription) (hs : s ∈ startEventListeners callId c) :
    s.live = true ∧ s.origin = callId := by
  unfold startEventListeners at hs
  split_ifs at hs <;> simp_all <;> rcases hs with h | h | h | h <;> simp_all

/-- The number of live submit-event listeners in a subscription set: how many
handlers a subsequent submit event would be delivered to. -/
def liveSubmitListeners (subs : List Subscription) : Nat :=
  (subs.filter (fun s => s.live && s.event == Event.onSubmit)).length

theorem submit_count_startEventListeners (callId : Nat)
    (c : NativeComponentHandle) :
    liveSubmitListeners (startEventListeners callId c) = 1 := by
  unfold liveSubmitListeners
  unfold startEventListeners
  split_ifs <;>
    simp [List.filter, Event.onSubmit, Event.onError, Event.onAdditionalDetails,
      Event.onComplete]

theorem start_ok_subscriptions (componentEvents : List String) (callId : Nat)
    (config : Configuration) (paymentMethods : Option PaymentMethodsResponse)
    (sessionStorage : Option SessionResponse) (typeName : String)
    (subs : List Subscription) (cat : PaymentMethodsResponse)
    (hpm : checkPaymentMethodsResponse
      (effectivePaymentMethods paymentMethods sessionStorage) = .ok cat)
    (hcfg : checkConfiguration config = .ok) :
    (start componentEvents callId config paymentMethods sessionStorage
        typeName subs).subscriptions
      = startEventListeners callId ⟨typeName, componentEvents⟩ := by
  rw [start_ok_eq componentEvents callId config paymentMethods sessionStorage
    typeName subs cat hpm hcfg]

/-- Claim C2: after two successive `start` calls, the subscription set is
exactly the one attached by the second call — every live subscription
originates from the second call, there is exactly one live submit listener
(no double delivery) — and the first action of the second call left no live
subscription from before it attached the new set. -/
theorem start_twice_single_subscription_set (componentEvents : List String)
    (id1 id2 : Nat) (config : Configuration)
    (paymentMethods : Option PaymentMethodsResponse)
    (sessionStorage : Option SessionResponse) (tn1 tn2 : String)
    (subs : List Subscription) (cat : PaymentMethodsResponse)
    (hpm : checkPaymentMethodsResponse
      (effectivePaymentMethods paymentMethods sessionStorage) = .ok cat)
    (hcfg : checkConfiguration config = .ok) :
    (start componentEvents id2 config paymentMethods sessionStorage tn2
        (start componentEvents id1 config paymentMethods sessionStorage tn1
          subs).subscriptions).subscriptions
      = startEventListeners id2 ⟨tn2, componentEvents⟩
    ∧ (∀ s ∈ (start componentEvents id2 config paymentMethods sessionStorage
          tn2 (start componentEvents id1 config paymentMethods sessionStorage
            tn1 subs).subscriptions).subscriptions,
        s.live = true ∧ s.origin = id2)
    ∧ (liveSubmitListeners
          (start componentEvents id2 config paymentMethods sessionStorage tn2
            (start componentEvents id1 config paymentMethods sessionStorage
              tn1 subs).subscriptions).subscriptions = 1)
    ∧ (∀ s ∈ removeEventListeners
          (start componentEvents id1 config paymentMethods sessionStorage tn1
            subs).subscriptions,
        s.live = false) := by
  have h2 := start_ok_subscriptions componentEvents id2 config paymentMethods
    sessionStorage tn2
    (start componentEvents id1 config paymentMethods sessionStorage tn1
      subs).subscriptions cat hpm hcfg
  refine ⟨h2, ?_, ?_, ?_⟩
  · rw [h2]
    exact mem_startEventListeners id2 ⟨tn2, componentEvents⟩
  · rw [h2]
    exact submit_count_startEventListeners id2 ⟨tn2, componentEvents⟩
  · exact removeEventListeners_not_live _

/-- Witness for C2 at a concrete run: two successive starts on a valid
configuration and a one-record catalog leave exactly the second call's
subscription set, with one live submit listener. -/
theorem start_twice_single_subscription_set_witness :
    (start [] 2 ⟨some "test", some "client_key", none, none, none⟩
        (some ⟨[⟨"scheme"⟩]⟩) none "ideal"
        (start [] 1 ⟨some "test", some "client_key", none, none, none⟩
          (some ⟨[⟨"scheme"⟩]⟩) none "card" []).subscriptions).subscriptions
      = startEventListeners 2 ⟨"ideal", []⟩
    ∧ (liveSubmitListeners
          (start [] 2 ⟨some "test", some "client_key", none, none, none⟩
            (some ⟨[⟨"scheme"⟩]⟩) none "ideal"
            (start [] 1 ⟨some "test", some "client_key", none, none, none⟩
              (some ⟨[⟨"scheme"⟩]⟩) none "card" []).subscriptions).subscriptions
          = 1) := by
  have h := start_twice_single_subscription_set [] 1 2
    ⟨some "test", some "client_key", none, none, none⟩ (some ⟨[⟨"scheme"⟩]⟩)
    none "card" "ideal" [] ⟨[⟨"scheme"⟩]⟩ (by decide) (by decide)
  exact ⟨h.1, h.2.2.1⟩

/-- Claim C3: when the catalog and configuration checks pass, `start` invokes
native open exactly once; with a narrowed one-record catalog and the derived
configuration whose dropin sub-configuration sets
`skipListWhenSinglePaymentMethod` to true when the resolver found a matching
record, and with the full effective catalog and the unmodified configuration
when no record matched. -/
theorem start_open_mode (componentEvents : List String) (callId : Nat)
    (config : Configuration) (paymentMethods : Option PaymentMethodsResponse)
    (sessionStorage : Option SessionResponse) (typeName : String)
    (subs : List Subscription) (cat : PaymentMethodsResponse)
    (hpm : checkPaymentMethodsResponse
      (effectivePaymentMethods paymentMethods sessionStorage) = .ok cat)
    (hcfg : checkConfiguration config = .ok) :
    (∀ pm, find cat typeName = some pm →
      (start componentEvents callId config paymentMethods sessionStorage
          typeName subs).opens
        = [⟨⟨[pm]⟩, singlePaymentConfig config⟩])
    ∧ (find cat typeName = none →
        (start componentEvents callId config paymentMethods sessionStorage
            typeName subs).opens
          = [⟨cat, config⟩])
    ∧ Option.map DropInConfiguration.skipListWhenSinglePaymentMethod
        (singlePaymentConfig config).dropin = some (some true) := by
  rw [start_ok_eq componentEvents callId config paymentMethods sessionStorage
    typeName subs cat hpm hcfg]
  refine ⟨?_, ?_, ?_⟩
  · intro pm hfind
    rw [hfind]
  · intro hfind
    rw [hfind]
  · rfl

/-- Witness for C3 at the two spec scenarios: catalog `[scheme]` with request
`card` opens the narrowed single-record catalog with the derived
configuration; catalog `[ideal, scheme]` with request `unknown_type` opens
the full unmodified catalog and configuration. -/
theorem start_open_mode_witness :
    (start [] 1 ⟨some "test", some "client_key", none, none, none⟩
        (some ⟨[⟨"scheme"⟩]⟩) none "card" []).opens
      = [⟨⟨[⟨"scheme"⟩]⟩, singlePaymentConfig
          ⟨some "test", some "client_key", none, none, none⟩⟩]
    ∧ (start [] 2 ⟨some "test", some "client_key", none, none, none⟩
        (some ⟨[⟨"ideal"⟩, ⟨"scheme"⟩]⟩) none "unknown_type" []).opens
      = [⟨⟨[⟨"ideal"⟩, ⟨"scheme"⟩]⟩,
          ⟨some "test", some "client_key", none, none, none⟩⟩] := by
  constructor
  · exact (start_open_mode [] 1
      ⟨some "test", some "client_key", none, none, none⟩ (some ⟨[⟨"scheme"⟩]⟩)
      none "card" [] ⟨[⟨"scheme"⟩]⟩ (by decide) (by decide)).1 ⟨"scheme"⟩
      (by decide)
  · exact (start_open_mode [] 2
      ⟨some "test", some "client_key", none, none, none⟩
      (some ⟨[⟨"ideal"⟩, ⟨"scheme"⟩]⟩) none "unknown_type" []
      ⟨[⟨"ideal"⟩, ⟨"scheme"⟩]⟩ (by decide) (by decide)).2.1 (by decide)

/-- Claim C10: in the single-method branch of `start`, the derived
configuration passed to native open preserves every top-level field of the
supplied configuration except `dropin`, whose value is replaced wholesale by
the object with `skipListWhenSinglePaymentMethod: true` as its only key — any
host-supplied drop-in options are discarded (the representative
`showPreselectedStoredPaymentMethod` field of the result is absent whatever
the input held). -/
theorem start_single_method_config_frame (componentEvents : List String)
    (callId : Nat) (config : Configuration)
    (paymentMethods : Option PaymentMethodsResponse)
    (sessionStorage : Option SessionResponse) (typeName : String)
    (subs : List Subscription) (cat : PaymentMethodsResponse)
    (pm : PaymentMethod)
    (hpm : checkPaymentMethodsResponse
      (effectivePaymentMethods paymentMethods sessionStorage) = .ok cat)
    (hcfg : checkConfiguration config = .ok)
    (hfind : find cat typeName = some pm) :
    (start componentEvents callId config paymentMethods sessionStorage
        typeName subs).opens
      = [⟨⟨[pm]⟩, singlePaymentConfig config⟩]
    ∧ (singlePaymentConfig config).environment = config.environment
    ∧ (singlePaymentConfig config).clientKey = config.clientKey
    ∧ (singlePaymentConfig config).returnUrl = config.returnUrl
    ∧ (singlePaymentConfig config).countryCode = config.countryCode
    ∧ (singlePaymentConfig config).dropin = some ⟨some true, none⟩ := by
  refine ⟨?_, rfl, rfl, rfl, rfl, rfl⟩
  exact (start_open_mode componentEvents callId config paymentMethods
    sessionStorage typeName subs cat hpm hcfg).1 pm hfind

/-- Witness for C10 at a concrete run whose input configuration carries other
drop-in options (`skipListWhenSinglePaymentMethod: false`,
`showPreselectedStoredPaymentMethod: true`): the derived configuration keeps
the top-level fields and replaces the whole drop-in object, discarding those
options. -/
theorem start_single_method_config_frame_witness :
    (start [] 1 ⟨some "test", some "client_key", some "myapp://",
        some "NL", some ⟨some false, some true⟩⟩ (some ⟨[⟨"scheme"⟩]⟩) none
        "card" []).opens
      = [⟨⟨[⟨"scheme"⟩]⟩, singlePaymentConfig
          ⟨some "test", some "client_key", some "myapp://", some "NL",
            some ⟨some false, some true⟩⟩⟩]
    ∧ (singlePaymentConfig ⟨some "test", some "client_key", some "myapp://",
        some "NL", some ⟨some false, some true⟩⟩).returnUrl = some "myapp://"
    ∧ (singlePaymentConfig ⟨some "test", some "client_key", some "myapp://",
        some "NL", some ⟨some false, some true⟩⟩).dropin
      = some ⟨some true, none⟩ := by
  have h := start_single_method_config_frame [] 1
    ⟨some "test", some "client_key", some "myapp://", some "NL",
      some ⟨some false, some true⟩⟩ (some ⟨[⟨"scheme"⟩]⟩) none "card" []
    ⟨[⟨"scheme"⟩]⟩ ⟨"scheme"⟩ (by decide) (by decide) (by decide)
  exact ⟨h.1, h.2.2.2.1, h.2.2.2.2.2⟩

/-- The component reference handed to host callbacks: either a native payment
component handle, or the session helper (the session subsystem). -/
inductive ComponentRef where
  | native (handle : NativeComponentHandle)
  | sessionHelper
deriving DecidableEq

/-- The payment data of a submit event payload: its optional `returnUrl` key
and, opaquely, every other key of the object (the spread `...data` copies them
unchanged). -/
structure PaymentData where
  returnUrl : Option String
  rest : String
deriving DecidableEq

/-- A native error event payload (`AdyenError` from `core/types`): message and
error code. -/
structure AdyenError where
  message : String
  errorCode : String
deriving DecidableEq

/-- A native submit event payload: `response.paymentData` and
`response.extra`. -/
structure SubmitEventResponse where
  paymentData : PaymentData
  extra : Option String
deriving DecidableEq

/-- One observable action of an event handler, in the order performed:
a native `hide(animated)` call, or an invocation of a host callback. -/
inductive HandlerEffect where
  | hide (animated : Bool) (component : ComponentRef)
  | hostOnSubmit (data : PaymentData) (extra : Option String)
      (component : ComponentRef)
  | hostOnError (error : AdyenError) (component : ComponentRef)
deriving DecidableEq

/-- Embeds `submitPayment` from the sources, as the payload it builds: the
spread of `data` with `returnUrl` set to `data.returnUrl ??
configuration.returnUrl`. -/
def submitPayment (configuration : Configuration) (data : PaymentData) :
    PaymentData :=
  { data with
    returnUrl := data.returnUrl.orElse (fun _ => configuration.returnUrl) }

/-- Embeds the submit-event listener installed by `startEventListeners`: it
first calls `nativeComponent.hide(false)`, then forwards the payload built by
`submitPayment` and the event's extra data to the host submit callback. -/
def onSubmitEvent (configuration : Configuration)
    (nativeComponent : NativeComponentHandle)
    (response : SubmitEventResponse) : List HandlerEffect :=
  [.hide false (.native nativeComponent),
    .hostOnSubmit (submitPayment configuration response.paymentData)
      response.extra (.native nativeComponent)]

/-- Embeds the error-event listener installed by `startEventListeners`: when
the error code is `canceledByShopper` it first calls
`nativeComponent.hide(false)`; in all cases it then forwards the error and the
native component reference to the host error callback. -/
def onErrorEvent (nativeComponent : NativeComponentHandle)
    (error : AdyenError) : List HandlerEffect :=
  (if error.errorCode = "canceledByShopper" then
    [HandlerEffect.hide false (.native nativeComponent)]
  else [])
  ++ [.hostOnError error (.native nativeComponent)]

/-- Claim C6: on a native error event whose code is `canceledByShopper`, the
handler performs exactly `hide(false)` on the native handle and then the host
error callback, in that order; for any other code it performs only the host
error callback; in every case the error and the native handle reference reach
the host error callback (it is the last effect). -/
theorem error_event_cancellation_order (h : NativeComponentHandle)
    (e : AdyenError) :
    (e.errorCode = "canceledByShopper" →
      onErrorEvent h e
        = [.hide false (.native h), .hostOnError e (.native h)])
    ∧ (e.errorCode ≠ "canceledByShopper" →
        onErrorEvent h e = [.hostOnError e (.native h)])
    ∧ (onErrorEvent h e).getLast? = some (.hostOnError e (.native h)) := by
  refine ⟨?_, ?_, ?_⟩
  · intro hc
    simp [onErrorEvent, hc]
  · intro hc
    simp [onErrorEvent, hc]
  · unfold onErrorEvent
    split_ifs <;> rfl

/-- Witness for C6 at a concrete cancellation error: the handler hides the
native component first and forwards the error to the host afterwards. -/
theorem error_event_cancellation_order_witness :
    onErrorEvent ⟨"AdyenDropIn", []⟩ ⟨"Canceled", "canceledByShopper"⟩
      = [.hide false (.native ⟨"AdyenDropIn", []⟩),
          .hostOnError ⟨"Canceled", "canceledByShopper"⟩
            (.native ⟨"AdyenDropIn", []⟩)] :=
  (error_event_cancellation_order ⟨"AdyenDropIn", []⟩
    ⟨"Canceled", "canceledByShopper"⟩).1 rfl

/-- Claim C8: on a native submit event the handler performs exactly
`hide(false)` on the native handle first and then the host submit callback
with the event's payment data and extra data; the forwarded payload keeps the
rest of the payment data, its `returnUrl` is the event payload's `returnUrl`
when present and the configuration's `returnUrl` otherwise. -/
theorem submit_event_order_and_returnUrl (config : Configuration)
    (h : NativeComponentHandle) (r : SubmitEventResponse) :
    onSubmitEvent config h r
      = [.hide false (.native h),
          .hostOnSubmit (submitPayment config r.paymentData) r.extra
            (.native h)]
    ∧ (submitPayment config r.paymentData).rest = r.paymentData.rest
    ∧ (∀ u, r.paymentData.returnUrl = some u →
        (submitPayment config r.paymentData).returnUrl = some u)
    ∧ (r.paymentData.returnUrl = none →
        (submitPayment config r.paymentData).returnUrl = config.returnUrl) := by
  refine ⟨rfl, rfl, ?_, ?_⟩
  · intro u hu
    simp [submitPayment, hu]
  · intro hu
    simp [submitPayment, hu, Option.orElse]

/-- Witness for C8 at a concrete submit event whose payload omits the return
URL: the native hide comes first and the forwarded payload carries the
configuration's return URL. -/
theorem submit_event_order_and_returnUrl_witness :
    onSubmitEvent ⟨some "test", some "client_key", some "myapp://", none,
        none⟩ ⟨"AdyenDropIn", []⟩ ⟨⟨none, "card-data"⟩, none⟩
      = [.hide false (.native ⟨"AdyenDropIn", []⟩),
          .hostOnSubmit (submitPayment ⟨some "test", some "client_key",
              some "myapp://", none, none⟩ ⟨none, "card-data"⟩) none
            (.native ⟨"AdyenDropIn", []⟩)]
    ∧ (submitPayment ⟨some "test", some "client_key", some "myapp://", none,
        none⟩ ⟨none, "card-data"⟩).returnUrl = some "myapp://" := by
  have h := submit_event_order_and_returnUrl
    ⟨some "test", some "client_key", some "myapp://", none, none⟩
    ⟨"AdyenDropIn", []⟩ ⟨⟨none, "card-data"⟩, none⟩
  exact ⟨h.1, h.2.2.2 rfl⟩

/-- A JavaScript value as it reaches `JSON.stringify` in the session failure
path: the rejection value of the backend promise is arbitrary JSON-like
data. -/
inductive Json where
  | null
  | bool (b : Bool)
  | num (n : Int)
  | str (s : String)
  | arr (items : List Json)
  | obj (fields : List (String × Json))

mutual

/-- Embeds the external `JSON.stringify` on JSON-like values (string escaping
of exotic characters elided: the keys and strings of interest are plain). -/
def jsonStringify : Json → String
  | .null => "null"
  | .bool true => "true"
  | .bool false => "false"
  | .num n => toString n
  | .str s => "\"" ++ s ++ "\""
  | .arr items => "[" ++ jsonStringifyItems items ++ "]"
  | .obj fields => "\x7b" ++ jsonStringifyFields fields ++ "\x7d"

def jsonStringifyItems : List Json → String
  | [] => ""
  | [x] => jsonStringify x
  | x :: y :: xs => jsonStringify x ++ "," ++ jsonStringifyItems (y :: xs)

def jsonStringifyFields : List (String × Json) → String
  | [] => ""
  | [(k, v)] => "\"" ++ k ++ "\":" ++ jsonStringify v
  | (k, v) :: f :: fs =>
    "\"" ++ k ++ "\":" ++ jsonStringify v ++ "," ++
      jsonStringifyFields (f :: fs)

end

/-- The settled outcome of the backend `SessionHelper.createSession` promise:
resolution with a session response, or rejection with some value. -/
inductive SessionResult where
  | resolved (response : SessionResponse)
  | rejected (e : Json)

/-- The observable outcome of the `createSession` continuation: the session
state afterwards and the host-callback invocations performed. -/
structure SessionSettled where
  sessionStorage : Option SessionResponse
  effects : List HandlerEffect
deriving DecidableEq

/-- Embeds `createSession` from the sources, as the continuation applied to
the settled backend promise: on resolution it stores the session response
(`setSession`); on rejection with `e` it invokes the host error callback with
the synthesized error object (message `JSON.stringify(e)`, error code
`sessionError`) and the `SessionHelper` as the originating component. -/
def createSession (result : SessionResult)
    (sessionStorage : Option SessionResponse) : SessionSettled :=
  match result with
  | .resolved response => ⟨some response, []⟩
  | .rejected e =>
    ⟨sessionStorage,
      [.hostOnError ⟨jsonStringify e, "sessionError"⟩ .sessionHelper]⟩

/-- Claim C7: when the backend session-creation promise rejects with any value
`e`, the continuation invokes the host error callback exactly once, with the
error code `sessionError`, the message `JSON.stringify(e)`, and the session
subsystem (not a native payment component) as the originating component; the
session state is left unchanged and nothing else happens (no retry). -/
theorem session_failure_reports_sessionError (e : Json)
    (sessionStorage : Option SessionResponse) :
    createSession (.rejected e) sessionStorage
      = ⟨sessionStorage,
          [.hostOnError ⟨jsonStringify e, "sessionError"⟩ .sessionHelper]⟩
    ∧ (createSession (.rejected e) sessionStorage).effects.length = 1 := by
  exact ⟨rfl, rfl⟩

/-- Witness for C7 at the spec's scenario C: rejection with the object
`\x7bcode: 500\x7d` produces exactly one host error callback invocation whose
message is its JSON-serialized form. -/
theorem session_failure_reports_sessionError_witness :
    createSession (.rejected (.obj [("code", .num 500)])) none
      = ⟨none,
          [.hostOnError ⟨"\x7b\"code\":500\x7d", "sessionError"⟩
            .sessionHelper]⟩
    ∧ (createSession (.rejected (.obj [("code", .num 500)])) none).effects.length
      = 1 := by
  have h := session_failure_reports_sessionError (.obj [("code", .num 500)])
    none
  refine ⟨?_, h.2⟩
  rw [h.1]
  rfl

/-- The tagged view-state variant of the instant flow
(`InstantViewState` of the Android sources). -/
inductive InstantViewState where
  | Loading
  | Error (errorMessage : String)
  | ShowComponent
deriving DecidableEq

/-- The visibility state of the three widgets bound by `InstantFragment`,
plus the error text currently shown. -/
structure InstantBinding where
  errorViewVisible : Bool
  errorViewText : String
  progressIndicatorVisible : Bool
  componentContainerVisible : Bool
deriving DecidableEq

/-- Embeds `onViewState` from the Android sources: each delivered view state
sets the visibility of the three widgets (and, for an error, the error text)
exactly as the corresponding `when` branch does. -/
def onViewState (viewState : InstantViewState) (binding : InstantBinding) :
    InstantBinding :=
  match viewState with
  | .Error errorMessage =>
    { binding with
      errorViewVisible := true
      errorViewText := errorMessage
      progressIndicatorVisible := false
      componentContainerVisible := false }
  | .Loading =>
    { binding with
      progressIndicatorVisible := true
      errorViewVisible := false
      componentContainerVisible := false }
  | .ShowComponent =>
    { binding with
      progressIndicatorVisible := false
      errorViewVisible := false
      componentContainerVisible := true }

/-- How many of the three widgets are visible in a binding state. -/
def visibleCount (binding : InstantBinding) : Nat :=
  (if binding.errorViewVisible then 1 else 0)
  + (if binding.progressIndicatorVisible then 1 else 0)
  + (if binding.componentContainerVisible then 1 else 0)

/-- Claim C9: after `onViewState` processes any delivered view state, from any
prior binding state, exactly one of the three widgets is visible, and the
visible one matches the delivered state: an error shows the error text with
its message, loading shows the progress indicator, show-component shows the
component container. -/
theorem view_state_exclusive_visibility (viewState : InstantViewState)
    (binding : InstantBinding) :
    visibleCount (onViewState viewState binding) = 1
    ∧ (∀ m, viewState = .Error m →
        (onViewState viewState binding).errorViewVisible = true
        ∧ (onViewState viewState binding).errorViewText = m)
    ∧ (viewState = .Loading →
        (onViewState viewState binding).progressIndicatorVisible = true)
    ∧ (viewState = .ShowComponent →
        (onViewState viewState binding).componentContainerVisible = true) := by
  cases viewState <;>
    simp [onViewState, visibleCount]

/-- Witness for C9 at a concrete delivered error state over a binding that
was showing the component: only the error text is visible afterwards and it
carries the delivered message. -/
theorem view_state_exclusive_visibility_witness :
    visibleCount (onViewState (.Error "Payment failed")
        ⟨false, "", false, true⟩) = 1
    ∧ (onViewState (.Error "Payment failed")
        ⟨false, "", false, true⟩).errorViewVisible = true
    ∧ (onViewState (.Error "Payment failed")
        ⟨false, "", false, true⟩).errorViewText = "Payment failed" := by
  have h := view_state_exclusive_visibility (.Error "Payment failed")
    ⟨false, "", false, true⟩
  have he := h.2.1 "Payment failed" rfl
  exact ⟨h.1, he.1, he.2⟩

end AdyenRN
